import Mathlib

/-!
# Fuxi volume plugin: client and mount orchestration

A shallow embedding of

* `vendor/github.com/drngsl/fuxi-go/client.go` (the volume-service client), and
* `pkg/volume/fuxi/fuxi.go` (the mounter / unmounter built on it),

followed by theorems about the embedded functions.

Conventions of the embedding.

* A Go function that touches the network takes the state of the remote side
  (a type parameter `σ`) and returns the new one.
* A Go result pair `(value, err)` is a Lean pair whose second component is
  `Option GoError`; `none` is the nil error.
* A Go pointer result is an `Option`; `none` is the nil pointer.  A nil map and
  a nil slice are `none` as well.
* Dereferencing a nil pointer ends the run with `Outcome.panicked`.
* Every call made through the `Fuxi` interface by the plugin is appended to
  `World.calls`, a ghost log used to state which remote calls were issued.
-/

namespace K8sFuxi

/-! ## Go values -/

/-- Go `error` values.  `errorString` is what `errors.New` builds; every other
error (from `net/http`, `encoding/json`, the host lookup, ...) is `foreign`,
with the name of its kind and its message. -/
inductive GoError where
  | errorString (s : String)
  | foreign (kind : String) (text : String)
deriving DecidableEq, Repr

/-- The `Error()` method of a Go error: its message. -/
def GoError.Error : GoError → String
  | .errorString s => s
  | .foreign _ text => text

/-- Go `errors.New`. -/
def errors.New (text : String) : GoError := .errorString text

/-- A Go `map[string]string`; `none` is the nil map. -/
abbrev StringMap := Option (List (String × String))

/-- A Go slice; `none` is the nil slice. -/
abbrev Slice (α : Type) := Option (List α)

/-- How a Go function call ends: it returns a value, or it panics. -/
inductive Outcome (α : Type) where
  | returned (a : α)
  | panicked
deriving DecidableEq, Repr

/-! ## client.go -/

/-- client.go line 11. -/
def VolumeNotFound : String := "Volume Not Found"

/-- client.go lines 24-28.  `Status` (a `map[string]interface{}`) is kept as an
association list of rendered values. -/
structure FuxiVolume where
  Name : String
  Mountpoint : String
  Status : StringMap
deriving DecidableEq, Repr

/-- The zero value of `FuxiVolume`. -/
def FuxiVolume.zero : FuxiVolume := ⟨"", "", none⟩

/-- client.go lines 264-266. -/
structure Capability where
  Scope : String
deriving DecidableEq, Repr

/-- The zero value of `Capability`. -/
def Capability.zero : Capability := ⟨""⟩

/-- The request structs of client.go (`ActivateRequest`, `CreateRequest`, ...),
as one sum type: what `post` is handed as its `request` argument. -/
inductive Request where
  | ActivateRequest
  | CreateRequest (Name : String) (Opts : StringMap)
  | RemoveRequest (Name : String)
  | MountRequest (Name : String)
  | PathRequest (Name : String)
  | GetRequest (Name : String)
  | ListRequest
  | CapabilitiesRequest
deriving DecidableEq, Repr

/-- A decoded JSON response document, restricted to the fields some response
struct of client.go reads.  Decoding into a response struct copies the fields
that struct has; a field the document lacks holds its zero value. -/
structure Document where
  Implements : Slice String
  Err : String
  Mountpoint : String
  Volume : FuxiVolume
  Volumes : Slice (Option FuxiVolume)
  Capabilities : Capability
deriving DecidableEq, Repr

/-- The document with every field absent. -/
def Document.zero : Document := ⟨none, "", "", FuxiVolume.zero, none, Capability.zero⟩

/-- client.go lines 92-94. -/
structure ActiveteResponse where
  Implements : Slice String

/-- client.go lines 113-115. -/
structure CreateResponse where
  Err : String

/-- client.go lines 138-140. -/
structure RemoveResponse where
  Err : String

/-- client.go lines 162-165. -/
structure MountResponse where
  Mountpoint : String
  Err : String

/-- client.go lines 189-192. -/
structure PathResponse where
  Mountpoint : String
  Err : String

/-- client.go lines 216-219. -/
structure GetResponse where
  Volume : FuxiVolume
  Err : String

/-- client.go lines 242-245. -/
structure ListResponse where
  Volumes : Slice (Option FuxiVolume)
  Err : String

/-- client.go lines 271-274. -/
structure CapabilitiesResponse where
  Capabilities : Capability
  Err : String

/-- A `*http.Request` as far as client.go looks at it. -/
structure HttpRequest where
  method : String
  url : String
  body : String
  header : List (String × String)
deriving DecidableEq, Repr

/-- Go `Header.Set`: replaces the value stored under the key. -/
def Header.Set (h : List (String × String)) (key value : String) : List (String × String) :=
  (key, value) :: h.filter (fun kv => kv.1 ≠ key)

/-- The libraries `request` stands on (`encoding/json`, `net/http`) together
with the network behind them.  They are not part of the repository, so they
are parameters: each may fail with any error, and `Do` may change the remote
state `σ`. -/
structure Http (σ : Type) where
  Marshal : Request → Except GoError String
  NewRequest : String → String → String → Except GoError HttpRequest
  Do : HttpRequest → σ → Except GoError String × σ
  Decode : String → Except GoError Document

/-- client.go lines 30-36. -/
structure Client (σ : Type) where
  http : Http σ
  schema : String
  host : String
  port : Int

/-- client.go lines 38-47.  The error result is always nil. -/
def NewClient {σ : Type} (http : Http σ) (host : String) (port : Int) :
    Client σ × Option GoError :=
  (⟨http, "http", host, port⟩, none)

/-- client.go lines 49-79.  The decoded document stands for the response value
the Go code fills through its `response` pointer. -/
def Client.request {σ : Type} (c : Client σ) (method url : String) (request : Request)
    (s : σ) : Except GoError Document × σ :=
  match (if method = "POST" then c.http.Marshal request else .ok "") with
  | .error err => (.error err, s)
  | .ok b =>
    match c.http.NewRequest method url b with
    | .error err => (.error err, s)
    | .ok req =>
      let req := { req with header := Header.Set req.header "Content-Type" "application/json" }
      match c.http.Do req s with
      | (.error err, s) => (.error err, s)
      | (.ok resp, s) =>
        match c.http.Decode resp with
        | .error err => (.error err, s)
        | .ok doc => (.ok doc, s)

/-- client.go lines 81-83. -/
def Client.post {σ : Type} (c : Client σ) (url : String) (request : Request) (s : σ) :
    Except GoError Document × σ :=
  c.request "POST" url request s

/-- client.go lines 85-87. -/
def Client.getURL {σ : Type} (c : Client σ) (path : String) : String :=
  c.schema ++ "://" ++ c.host ++ ":" ++ toString c.port ++ "/" ++ path

/-- client.go lines 96-106. -/
def Client.Activate {σ : Type} (c : Client σ) (s : σ) :
    (Slice String × Option GoError) × σ :=
  match c.post (c.getURL "Plugin.Activate") .ActivateRequest s with
  | (.error err, s) => ((none, some err), s)
  | (.ok doc, s) =>
    let resp : ActiveteResponse := ⟨doc.Implements⟩
    ((resp.Implements, none), s)

/-- client.go lines 117-132. -/
def Client.Create {σ : Type} (c : Client σ) (volName : String) (opts : StringMap) (s : σ) :
    Option GoError × σ :=
  match c.post (c.getURL "VolumeDriver.Create") (.CreateRequest volName opts) s with
  | (.error err, s) => (some err, s)
  | (.ok doc, s) =>
    let resp : CreateResponse := ⟨doc.Err⟩
    if resp.Err ≠ "" then (some (errors.New resp.Err), s) else (none, s)

/-- client.go lines 142-156. -/
def Client.Remove {σ : Type} (c : Client σ) (volName : String) (s : σ) :
    Option GoError × σ :=
  match c.post (c.getURL "VolumeDriver.Remove") (.RemoveRequest volName) s with
  | (.error err, s) => (some err, s)
  | (.ok doc, s) =>
    let resp : RemoveResponse := ⟨doc.Err⟩
    if resp.Err ≠ "" then (some (errors.New resp.Err), s) else (none, s)

/-- client.go lines 167-183.  The `ID` argument is not sent. -/
def Client.Mount {σ : Type} (c : Client σ) (volName : String) (_ID : String) (s : σ) :
    (String × Option GoError) × σ :=
  match c.post (c.getURL "VolumeDriver.Mount") (.MountRequest volName) s with
  | (.error err, s) => (("", some err), s)
  | (.ok doc, s) =>
    let resp : MountResponse := ⟨doc.Mountpoint, doc.Err⟩
    let mountpoint := resp.Mountpoint
    if resp.Err ≠ "" then ((mountpoint, some (errors.New resp.Err)), s)
    else ((mountpoint, none), s)

/-- client.go lines 194-210.  It posts to `VolumeDriver.Get`, as the source does. -/
def Client.Path {σ : Type} (c : Client σ) (volName : String) (s : σ) :
    (String × Option GoError) × σ :=
  match c.post (c.getURL "VolumeDriver.Get") (.PathRequest volName) s with
  | (.error err, s) => (("", some err), s)
  | (.ok doc, s) =>
    let resp : PathResponse := ⟨doc.Mountpoint, doc.Err⟩
    let mountpoint := resp.Mountpoint
    if resp.Err ≠ "" then ((mountpoint, some (errors.New resp.Err)), s)
    else ((mountpoint, none), s)

/-- client.go lines 220-237. -/
def Client.Get {σ : Type} (c : Client σ) (volName : String) (s : σ) :
    (Option FuxiVolume × Option GoError) × σ :=
  match c.post (c.getURL "VolumeDriver.Get") (.GetRequest volName) s with
  | (.error err, s) => ((none, some err), s)
  | (.ok doc, s) =>
    let resp : GetResponse := ⟨doc.Volume, doc.Err⟩
    let volume := some resp.Volume
    if resp.Err ≠ "" then ((volume, some (errors.New resp.Err)), s)
    else ((volume, none), s)

/-- client.go lines 276-292. -/
def Client.Capabilities {σ : Type} (c : Client σ) (s : σ) :
    (Capability × Option GoError) × σ :=
  match c.post (c.getURL "VolumeDriver.Capabilities") .CapabilitiesRequest s with
  | (.error err, s) => ((Capability.zero, some err), s)
  | (.ok doc, s) =>
    let ret : CapabilitiesResponse := ⟨doc.Capabilities, doc.Err⟩
    let capabilities := ret.Capabilities
    if ret.Err ≠ "" then ((capabilities, some (errors.New ret.Err)), s)
    else ((capabilities, none), s)

/-- client.go lines 247-262. -/
def Client.List {σ : Type} (c : Client σ) (s : σ) :
    (Slice (Option FuxiVolume) × Option GoError) × σ :=
  match c.post (c.getURL "VolumeDriver.List") .ListRequest s with
  | (.error err, s) => ((none, some err), s)
  | (.ok doc, s) =>
    let resp : ListResponse := ⟨doc.Volumes, doc.Err⟩
    let volumes := resp.Volumes
    if resp.Err ≠ "" then ((volumes, some (errors.New resp.Err)), s)
    else ((volumes, none), s)

/-- client.go lines 13-22: the `Fuxi` interface, as a record of methods over
the remote state. -/
structure Fuxi (σ : Type) where
  Activate : σ → (Slice String × Option GoError) × σ
  Create : String → StringMap → σ → Option GoError × σ
  Remove : String → σ → Option GoError × σ
  Path : String → σ → (String × Option GoError) × σ
  Mount : String → String → σ → (String × Option GoError) × σ
  Get : String → σ → (Option FuxiVolume × Option GoError) × σ
  Capabilities : σ → (Capability × Option GoError) × σ
  List : σ → (Slice (Option FuxiVolume) × Option GoError) × σ

/-- A `*Client` used through the `Fuxi` interface. -/
def Client.toFuxi {σ : Type} (c : Client σ) : Fuxi σ where
  Activate := c.Activate
  Create := c.Create
  Remove := c.Remove
  Path := c.Path
  Mount := c.Mount
  Get := c.Get
  Capabilities := c.Capabilities
  List := c.List

/-! ## fuxi.go -/

/-- fuxi.go line 34. -/
def defaultPort : Int := 7879

/-- The `volume.VolumeHost` collaborator, as far as fuxi.go uses it: the
outcome of `GetHostIP`, the address already rendered by `host.String()`. -/
structure VolumeHost where
  GetHostIP : Except GoError String

/-- fuxi.go lines 42-44, for a plugin on which `Init` has run. -/
structure fuxiPlugin where
  host : VolumeHost

/-- What fuxi.go takes from outside the repository besides the volume host:
the environment lookup `env.GetEnvAsIntOrFallback` and the HTTP stack a fresh
`Client` talks through. -/
structure Platform (σ : Type) where
  GetEnvAsIntOrFallback : String → Int → Except GoError Int
  http : Http σ

/-- fuxi.go lines 140-147.  `pod` is kept as its UID; the `mounter` field
(`mount.Interface`) is never read by fuxi.go and is left out. -/
structure fuxi where
  pod : String
  volume : String
  path : String
  plugin : fuxiPlugin

/-- fuxi.go lines 149-154.  `client` is `none` while the interface value is nil. -/
structure fuxiMounter (σ : Type) where
  fuxi : fuxi
  options : StringMap
  client : Option (Fuxi σ)
  readOnly : Bool

/-- fuxi.go lines 240-242. -/
structure fuxiUnmounter where
  fuxi : fuxi

/-- One call through the `Fuxi` interface, with its arguments. -/
inductive Call where
  | Activate
  | Create (name : String) (opts : StringMap)
  | Remove (name : String)
  | Path (name : String)
  | Mount (name : String) (id : String)
  | Get (name : String)
  | Capabilities
  | List
deriving DecidableEq, Repr

/-- The remote side together with the ghost log of the interface calls the
plugin has made so far, oldest first. -/
structure World (σ : Type) where
  remote : σ
  calls : List Call

/-- The call `client.Get(name)`, logged. -/
def callGet {σ : Type} (client : Fuxi σ) (name : String) (w : World σ) :
    (Option FuxiVolume × Option GoError) × World σ :=
  let r := client.Get name w.remote
  (r.1, ⟨r.2, w.calls ++ [Call.Get name]⟩)

/-- The call `client.Create(name, opts)`, logged. -/
def callCreate {σ : Type} (client : Fuxi σ) (name : String) (opts : StringMap)
    (w : World σ) : Option GoError × World σ :=
  let r := client.Create name opts w.remote
  (r.1, ⟨r.2, w.calls ++ [Call.Create name opts]⟩)

/-- The call `client.Mount(name, id)`, logged. -/
def callMount {σ : Type} (client : Fuxi σ) (name id : String) (w : World σ) :
    (String × Option GoError) × World σ :=
  let r := client.Mount name id w.remote
  (r.1, ⟨r.2, w.calls ++ [Call.Mount name id]⟩)

/-- fuxi.go lines 158-168. -/
def fuxi.NewFuxiClient {σ : Type} (p : Platform σ) (fuxiVolume : fuxi) :
    Except GoError (Client σ) :=
  match fuxiVolume.plugin.host.GetHostIP with
  | .error err => .error err
  | .ok host =>
    match p.GetEnvAsIntOrFallback "FUXI_SERVER_PORT" defaultPort with
    | .error err => .error err
    | .ok port =>
      match NewClient p.http host port with
      | (_, some err) => .error err
      | (c, none) => .ok c

/-- What `SetUpAt` returns, with the mounter and the world it leaves behind. -/
structure Run (σ : Type) where
  result : Outcome (Option GoError)
  mounter : fuxiMounter σ
  world : World σ

/-- fuxi.go lines 188-194: the client `SetUpAt` goes on with, the one already
bound or a fresh one. -/
def fuxiMounter.boundClient {σ : Type} (p : Platform σ) (mounter : fuxiMounter σ) :
    Except GoError (Fuxi σ) :=
  match mounter.client with
  | some c => .ok c
  | none =>
    match mounter.fuxi.NewFuxiClient p with
    | .error err => .error err
    | .ok c => .ok c.toFuxi

/-- fuxi.go lines 213-222: the tail of `SetUpAt`, reached with the volume
pointer `vol` of the last `Get`. -/
def fuxiMounter.adopt {σ : Type} (mounter : fuxiMounter σ) (client : Fuxi σ) (dir : String)
    (vol : Option FuxiVolume) (w : World σ) : Run σ :=
  match vol with
  | none => ⟨.panicked, mounter, w⟩
  | some vol =>
    if vol.Mountpoint ≠ "" then
      ⟨.returned none, { mounter with fuxi := { mounter.fuxi with path := vol.Mountpoint } }, w⟩
    else
      match callMount client dir "" w with
      | ((_, some err), w) => ⟨.returned (some err), mounter, w⟩
      | ((mountpoint, none), w) =>
        ⟨.returned none, { mounter with fuxi := { mounter.fuxi with path := mountpoint } }, w⟩

/-- fuxi.go lines 187-223. -/
def fuxiMounter.SetUpAt {σ : Type} (p : Platform σ) (mounter : fuxiMounter σ) (dir : String)
    (_fsGroup : Option Int) (w : World σ) : Run σ :=
  match mounter.boundClient p with
  | .error err => ⟨.returned (some err), mounter, w⟩
  | .ok client =>
    let mounter := { mounter with client := some client }
    match callGet client dir w with
    | ((vol, none), w) => mounter.adopt client dir vol w
    | ((_, some err), w) =>
      if err.Error = VolumeNotFound then
        let mounter :=
          match mounter.options with
          | none => { mounter with options := some [] }
          | some _ => mounter
        match callCreate client dir mounter.options w with
        | (some err, w) => ⟨.returned (some err), mounter, w⟩
        | (none, w) =>
          match callGet client dir w with
          | ((_, some err), w) => ⟨.returned (some err), mounter, w⟩
          | ((vol, none), w) => mounter.adopt client dir vol w
      else
        ⟨.returned (some err), mounter, w⟩

/-- fuxi.go lines 183-185. -/
def fuxiMounter.SetUp {σ : Type} (p : Platform σ) (mounter : fuxiMounter σ)
    (fsGroup : Option Int) (w : World σ) : Run σ :=
  mounter.SetUpAt p mounter.fuxi.volume fsGroup w

/-- fuxi.go lines 225-238.  The receiver is returned next to the result, so
that what the call leaves of it can be stated. -/
def fuxi.GetPath {σ : Type} (p : Platform σ) (fuxiVolume : fuxi) (w : World σ) :
    Outcome String × fuxi × World σ :=
  if fuxiVolume.path ≠ "" then
    (.returned fuxiVolume.path, fuxiVolume, w)
  else
    match fuxiVolume.NewFuxiClient p with
    | .error _ => (.returned "", fuxiVolume, w)
    | .ok c =>
      match callGet c.toFuxi fuxiVolume.volume w with
      | ((_, some _), w) => (.returned "", fuxiVolume, w)
      | ((none, none), w) => (.panicked, fuxiVolume, w)
      | ((some vol, none), w) => (.returned vol.Mountpoint, fuxiVolume, w)

/-- fuxi.go lines 250-252. -/
def fuxiUnmounter.TearDownAt {σ : Type} (unmounter : fuxiUnmounter) (_dir : String)
    (w : World σ) : Outcome (Option GoError) × fuxiUnmounter × World σ :=
  (.returned none, unmounter, w)

/-- fuxi.go lines 246-248.  The argument `unmounter.GetPath()` is evaluated
before `TearDownAt` is entered. -/
def fuxiUnmounter.TearDown {σ : Type} (p : Platform σ) (unmounter : fuxiUnmounter)
    (w : World σ) : Outcome (Option GoError) × fuxiUnmounter × World σ :=
  match unmounter.fuxi.GetPath p w with
  | (.panicked, f, w) => (.panicked, ⟨f⟩, w)
  | (.returned dir, f, w) => fuxiUnmounter.TearDownAt ⟨f⟩ dir w

/-! ## Vocabulary of the statements -/

/-- The interface calls a run of `SetUpAt` started in world `w` has added to
the log. -/
def Run.issued {σ : Type} (run : Run σ) (w : World σ) : List Call :=
  run.world.calls.drop w.calls.length

/-- The options `SetUpAt` hands to `Create` (fuxi.go lines 198-200): the
mounter's own, or a fresh empty map when they are nil. -/
def fuxiMounter.createOptions {σ : Type} (mounter : fuxiMounter σ) : StringMap :=
  match mounter.options with
  | none => some []
  | some m => some m

/-- The error convention of client.go for one operation, given what `post`
returned (`transport`), the error the operation returned (`err`) and the
statement that its payload is the zero value (`zeroPayload`): on a decoded
response the operation fails exactly when the `Err` field is non-empty, with
that text as its message; on a transport failure it returns the transport
error itself and a zero payload. -/
def errConvention {σ : Type} (transport : Except GoError Document × σ)
    (err : Option GoError) (zeroPayload : Prop) : Prop :=
  match transport.1 with
  | .ok doc => (err ≠ none ↔ doc.Err ≠ "") ∧ ∀ e, err = some e → e.Error = doc.Err
  | .error e => err = some e ∧ zeroPayload

/-- A client that behaves as a faithful remote service, seen through `view`:
`view s name` is `none` while the volume is absent and `some m` while it is
present with mountpoint `m` (empty while unmounted).  `Get` fails with "Volume
Not Found" exactly when the volume is absent and otherwise returns its record;
`Create` adds an absent volume with an empty mountpoint; `Mount` of an
unmounted volume sets a non-empty mountpoint and returns it. -/
structure FaithfulService {σ : Type} (c : Fuxi σ) (view : σ → String → Option String) :
    Prop where
  get_absent : ∀ s name, view s name = none →
    ∃ v e s1, c.Get name s = ((v, some e), s1) ∧ e.Error = VolumeNotFound ∧ view s1 = view s
  get_present : ∀ s name m, view s name = some m →
    ∃ r s1, c.Get name s = ((some r, none), s1) ∧ r.Mountpoint = m ∧ view s1 = view s
  create_adds : ∀ s name opts, view s name = none →
    ∃ s1, c.Create name opts s = (none, s1) ∧
      view s1 = Function.update (view s) name (some "")
  mount_sets : ∀ s name id, view s name = some "" →
    ∃ m s1, c.Mount name id s = ((m, none), s1) ∧ m ≠ "" ∧
      view s1 = Function.update (view s) name (some m)

/-- The calls a run of `SetUpAt` is to issue against a faithful service, by
the state the volume is in when the run starts. -/
def callsFor (dir : String) (opts : StringMap) : Option String → List Call
  | none => [Call.Get dir, Call.Create dir opts, Call.Get dir, Call.Mount dir ""]
  | some m => if m = "" then [Call.Get dir, Call.Mount dir ""] else [Call.Get dir]

/-- The lists of calls one run of `SetUpAt` can issue. -/
def callShapes (dir : String) (opts : StringMap) : List (List Call) :=
  [[Call.Get dir],
   [Call.Get dir, Call.Mount dir ""],
   [Call.Get dir, Call.Create dir opts],
   [Call.Get dir, Call.Create dir opts, Call.Get dir],
   [Call.Get dir, Call.Create dir opts, Call.Get dir, Call.Mount dir ""]]

/-- The two ways `SetUpAt` reaches its tail (fuxi.go line 213) holding a
record: client `c`, started on remote state `s0`, hands over record `r` at
remote state `s3` after issuing the calls `pre`.  Either the first `Get`
returned `r` and no error, or the first `Get` failed with "Volume Not Found",
`Create` with options `opts` succeeded at the state that `Get` left, and the
second `Get`, at the state `Create` left, returned `r` and no error. -/
def reachesTail {σ : Type} (c : Fuxi σ) (opts : StringMap) (dir : String) (s0 : σ)
    (r : FuxiVolume) (s3 : σ) (pre : List Call) : Prop :=
  (c.Get dir s0 = ((some r, none), s3) ∧ pre = [Call.Get dir]) ∨
  ∃ v0 e s1 s2, c.Get dir s0 = ((v0, some e), s1) ∧ e.Error = VolumeNotFound ∧
    c.Create dir opts s1 = (none, s2) ∧ c.Get dir s2 = ((some r, none), s3) ∧
    pre = [Call.Get dir, Call.Create dir opts, Call.Get dir]

/-- What a run that returned no error has adopted, when its tail was reached
with record `r` at remote state `s3` after the calls `pre`.  Either
`r.Mountpoint` is non-empty, it is the recorded path, and nothing further was
called; or `r.Mountpoint` is empty, the run went on to call `Mount(dir, "")`
at `s3`, that call returned a mountpoint and no error, and this mountpoint
(empty or not) is the recorded path. -/
def adoptedFrom {σ : Type} (c : Fuxi σ) (dir : String) (r : FuxiVolume) (s3 : σ)
    (pre : List Call) (run : Run σ) (w : World σ) : Prop :=
  (r.Mountpoint ≠ "" ∧ run.mounter.fuxi.path = r.Mountpoint ∧ run.issued w = pre ∧
    run.world.remote = s3) ∨
  (r.Mountpoint = "" ∧ ∃ mountpoint s4, c.Mount dir "" s3 = ((mountpoint, none), s4) ∧
    run.mounter.fuxi.path = mountpoint ∧ run.issued w = pre ++ [Call.Mount dir ""] ∧
    run.world.remote = s4)

/-! ## Fixtures

A canned HTTP stack and a mounter on it, used to run the embedded code on
concrete inputs. -/

/-- The response documents of the fixtures, by the body that carries them. -/
def cannedDecode (body : String) : Except GoError Document :=
  if body = "not-found" then .ok { Document.zero with Err := VolumeNotFound }
  else if body = "ok" then .ok Document.zero
  else if body = "busy" then .ok { Document.zero with Err := "volume is busy" }
  else if body = "unmounted" then .ok { Document.zero with Volume := ⟨"vol1", "", none⟩ }
  else if body = "mounted" then
    .ok { Document.zero with Volume := ⟨"vol1", "/mnt/vol1", none⟩, Mountpoint := "/mnt/vol1" }
  else .error (.foreign "json" "invalid character")

/-- An HTTP stack whose remote side is the list of bodies still to be served:
each `Do` serves the next one, and fails once none is left. -/
def cannedHttp : Http (List String) where
  Marshal := fun _ => .ok ""
  NewRequest := fun method url body => .ok ⟨method, url, body, []⟩
  Do := fun _ s =>
    match s with
    | [] => (.error (.foreign "net" "connection refused"), [])
    | body :: rest => (.ok body, rest)
  Decode := cannedDecode

/-- A platform on the canned HTTP stack, with the port variable unset. -/
def cannedPlatform : Platform (List String) where
  GetEnvAsIntOrFallback := fun _ fallback => .ok fallback
  http := cannedHttp

/-- A fresh session for volume `vol1`: no path recorded yet. -/
def freshFuxi : fuxi := ⟨"pod-1", "vol1", "", ⟨⟨.ok "127.0.0.1"⟩⟩⟩

/-- A fresh mounter for volume `vol1`: nil options, no client bound. -/
def freshMounter : fuxiMounter (List String) := ⟨freshFuxi, none, none, false⟩

/-- The world in which the remote side will serve the given bodies. -/
def serving (bodies : List String) : World (List String) := ⟨bodies, []⟩

/-- The client `NewFuxiClient` builds on the canned platform. -/
def cannedClient : Client (List String) := ⟨cannedHttp, "http", "127.0.0.1", defaultPort⟩

/-- The four responses of a run that finds no volume, creates it, finds it
unmounted and mounts it. -/
def createAndMount : List String := ["not-found", "ok", "unmounted", "mounted"]

/-- An HTTP stack without a network: every step fails. -/
def offlineHttp {σ : Type} : Http σ where
  Marshal := fun _ => .error (.foreign "net" "offline")
  NewRequest := fun _ _ _ => .error (.foreign "net" "offline")
  Do := fun _ s => (.error (.foreign "net" "offline"), s)
  Decode := fun _ => .error (.foreign "net" "offline")

/-- A platform on the offline HTTP stack. -/
def offlinePlatform {σ : Type} : Platform σ where
  GetEnvAsIntOrFallback := fun _ fallback => .ok fallback
  http := offlineHttp

/-- A remote volume service held in memory, as a client: the state maps a
volume name to its mountpoint (`none` while the volume is absent, empty while
it is unmounted), and a mounted volume `name` sits at `/mnt/name`. -/
def modelService : Fuxi (String → Option String) where
  Activate := fun s => ((some ["VolumeDriver"], none), s)
  Create := fun name _ s =>
    match s name with
    | none => (none, Function.update s name (some ""))
    | some _ => (some (errors.New "Volume Exists"), s)
  Remove := fun name s =>
    match s name with
    | none => (some (errors.New VolumeNotFound), s)
    | some _ => (none, Function.update s name none)
  Path := fun name s =>
    match s name with
    | none => (("", some (errors.New VolumeNotFound)), s)
    | some m => ((m, none), s)
  Mount := fun name _ s =>
    match s name with
    | none => (("", some (errors.New VolumeNotFound)), s)
    | some _ => (("/mnt/" ++ name, none), Function.update s name (some ("/mnt/" ++ name)))
  Get := fun name s =>
    match s name with
    | none => ((some FuxiVolume.zero, some (errors.New VolumeNotFound)), s)
    | some m => ((some ⟨name, m, none⟩, none), s)
  Capabilities := fun s => ((⟨"local"⟩, none), s)
  List := fun s => ((none, none), s)

/-- A fresh mounter for `vol1` bound to the in-memory service. -/
def modelMounter : fuxiMounter (String → Option String) :=
  ⟨freshFuxi, none, some modelService, false⟩

/-- The world whose in-memory service holds no volume. -/
def emptyWorld : World (String → Option String) := ⟨fun _ => none, []⟩

/-- A first run of `SetUpAt` against the empty in-memory service. -/
def firstRun : Run (String → Option String) :=
  modelMounter.SetUpAt offlinePlatform "vol1" none emptyWorld

/-- A second run, directly after the first. -/
def secondRun : Run (String → Option String) :=
  firstRun.mounter.SetUpAt offlinePlatform "vol1" none firstRun.world

/-! ## Theorems -/

/-- The options of the mounter after `SetUpAt` has defaulted them. -/
theorem options_after_default {σ : Type} (mounter : fuxiMounter σ) (c : Fuxi σ) :
    (match mounter.options with
      | none => ({ mounter with client := some c, options := some [] } : fuxiMounter σ)
      | some _ => { mounter with client := some c }).options = mounter.createOptions := by
  cases ho : mounter.options <;> simp [fuxiMounter.createOptions, ho]

/-- Defaulting the options leaves the session record alone. -/
theorem fuxi_after_default {σ : Type} (mounter : fuxiMounter σ) (c : Fuxi σ) :
    (match mounter.options with
      | none => ({ mounter with client := some c, options := some [] } : fuxiMounter σ)
      | some _ => { mounter with client := some c }).fuxi = mounter.fuxi := by
  cases ho : mounter.options <;> simp

/-- Every way a run of the tail of `SetUpAt` can end, given the calls `pre`
issued before it. -/
theorem adopt_cases {σ : Type} (m : fuxiMounter σ) (c : Fuxi σ) (dir : String)
    (vol : Option FuxiVolume) (w0 : World σ) (s : σ) (pre : List Call) :
    ((m.adopt c dir vol ⟨s, w0.calls ++ pre⟩).result = .panicked ∧
      (m.adopt c dir vol ⟨s, w0.calls ++ pre⟩).mounter.fuxi.path = m.fuxi.path ∧
      (m.adopt c dir vol ⟨s, w0.calls ++ pre⟩).issued w0 = pre) ∨
    ((m.adopt c dir vol ⟨s, w0.calls ++ pre⟩).result = .returned none ∧
      (m.adopt c dir vol ⟨s, w0.calls ++ pre⟩).mounter.fuxi.path ≠ "" ∧
      (m.adopt c dir vol ⟨s, w0.calls ++ pre⟩).issued w0 = pre) ∨
    ((m.adopt c dir vol ⟨s, w0.calls ++ pre⟩).result = .returned none ∧
      (∃ s4, c.Mount dir "" s =
        (((m.adopt c dir vol ⟨s, w0.calls ++ pre⟩).mounter.fuxi.path, none), s4)) ∧
      (m.adopt c dir vol ⟨s, w0.calls ++ pre⟩).issued w0 = pre ++ [Call.Mount dir ""]) ∨
    ((∃ e, (m.adopt c dir vol ⟨s, w0.calls ++ pre⟩).result = .returned (some e)) ∧
      (m.adopt c dir vol ⟨s, w0.calls ++ pre⟩).mounter.fuxi.path = m.fuxi.path ∧
      (m.adopt c dir vol ⟨s, w0.calls ++ pre⟩).issued w0 = pre ++ [Call.Mount dir ""]) := by
  cases vol with
  | none => left; simp [fuxiMounter.adopt, Run.issued]
  | some r =>
    by_cases hm : r.Mountpoint = ""
    · rcases hmt : c.Mount dir "" s with ⟨⟨mp, me⟩, s4⟩
      cases me with
      | none =>
        right; right; left
        simp [fuxiMounter.adopt, Run.issued, hm, callMount, hmt]
      | some e =>
        right; right; right
        simp [fuxiMounter.adopt, Run.issued, hm, callMount, hmt]
    · right; left
      simp [fuxiMounter.adopt, Run.issued, hm]

/-- Every way a run of `SetUpAt` can end: how it returns, what it leaves as
the session path, and which calls it issued. -/
theorem SetUpAt_cases {σ : Type} (p : Platform σ) (mounter : fuxiMounter σ)
    (dir : String) (fsGroup : Option Int) (w : World σ) :
    ((∃ e, (mounter.SetUpAt p dir fsGroup w).result = .returned (some e)) ∧
      (mounter.SetUpAt p dir fsGroup w).mounter.fuxi.path = mounter.fuxi.path ∧
      (mounter.SetUpAt p dir fsGroup w).issued w = []) ∨
    ∃ c, mounter.boundClient p = .ok c ∧
      (((mounter.SetUpAt p dir fsGroup w).result = .panicked ∧
        (mounter.SetUpAt p dir fsGroup w).mounter.fuxi.path = mounter.fuxi.path) ∨
       ((mounter.SetUpAt p dir fsGroup w).result = .returned none ∧
        (mounter.SetUpAt p dir fsGroup w).mounter.fuxi.path ≠ "") ∨
       ((mounter.SetUpAt p dir fsGroup w).result = .returned none ∧
        (∃ s3 s4, c.Mount dir "" s3 =
          (((mounter.SetUpAt p dir fsGroup w).mounter.fuxi.path, none), s4)) ∧
        ((mounter.SetUpAt p dir fsGroup w).issued w).getLast? = some (Call.Mount dir "")) ∨
       ((∃ e, (mounter.SetUpAt p dir fsGroup w).result = .returned (some e)) ∧
        (mounter.SetUpAt p dir fsGroup w).mounter.fuxi.path = mounter.fuxi.path)) ∧
      (mounter.SetUpAt p dir fsGroup w).issued w ∈ callShapes dir mounter.createOptions := by
  cases hb : mounter.boundClient p with
  | error e0 => left; simp [fuxiMounter.SetUpAt, hb, Run.issued]
  | ok c =>
    right
    refine ⟨c, rfl, ?_⟩
    rcases hg : c.Get dir w.remote with ⟨⟨v, e⟩, s1⟩
    cases e with
    | none =>
      have hrun : mounter.SetUpAt p dir fsGroup w =
          fuxiMounter.adopt { mounter with client := some c } c dir v
            ⟨s1, w.calls ++ [Call.Get dir]⟩ := by
        simp [fuxiMounter.SetUpAt, hb, callGet, hg]
      rw [hrun]
      rcases adopt_cases { mounter with client := some c } c dir v w s1 [Call.Get dir] with
        h | h | h | h
      · exact ⟨Or.inl ⟨h.1, h.2.1⟩, by rw [h.2.2]; simp [callShapes]⟩
      · exact ⟨Or.inr (Or.inl ⟨h.1, h.2.1⟩), by rw [h.2.2]; simp [callShapes]⟩
      · exact ⟨Or.inr (Or.inr (Or.inl ⟨h.1, ⟨s1, h.2.1⟩, by rw [h.2.2]; simp⟩)),
          by rw [h.2.2]; simp [callShapes]⟩
      · exact ⟨Or.inr (Or.inr (Or.inr ⟨h.1, h.2.1⟩)), by rw [h.2.2]; simp [callShapes]⟩
    | some e1 =>
      by_cases hne : e1.Error = VolumeNotFound
      · rcases hcr : c.Create dir mounter.createOptions s1 with ⟨ce, s2⟩
        cases ce with
        | some e2 =>
          refine ⟨Or.inr (Or.inr (Or.inr ?_)), ?_⟩ <;>
            simp [fuxiMounter.SetUpAt, hb, callGet, hg, hne, callCreate, options_after_default,
              fuxi_after_default, hcr, Run.issued, callShapes]
        | none =>
          rcases hg2 : c.Get dir s2 with ⟨⟨v2, e3⟩, s3⟩
          cases e3 with
          | some e3 =>
            refine ⟨Or.inr (Or.inr (Or.inr ?_)), ?_⟩ <;>
              simp [fuxiMounter.SetUpAt, hb, callGet, hg, hne, callCreate, options_after_default,
                fuxi_after_default, hcr, hg2, Run.issued, callShapes]
          | none =>
            have hrun : mounter.SetUpAt p dir fsGroup w =
                fuxiMounter.adopt
                  (match mounter.options with
                    | none => ({ mounter with client := some c, options := some [] } :
                        fuxiMounter σ)
                    | some _ => { mounter with client := some c }) c dir v2
                  ⟨s3, w.calls ++
                    [Call.Get dir, Call.Create dir mounter.createOptions, Call.Get dir]⟩ := by
              simp [fuxiMounter.SetUpAt, hb, callGet, hg, hne, callCreate,
                options_after_default, hcr, hg2]
            rw [hrun]
            rcases adopt_cases (match mounter.options with
                    | none => ({ mounter with client := some c, options := some [] } :
                        fuxiMounter σ)
                    | some _ => { mounter with client := some c }) c dir v2 w s3
                [Call.Get dir, Call.Create dir mounter.createOptions, Call.Get dir] with
              h | h | h | h
            · rw [fuxi_after_default] at h
              exact ⟨Or.inl ⟨h.1, h.2.1⟩, by rw [h.2.2]; simp [callShapes]⟩
            · exact ⟨Or.inr (Or.inl ⟨h.1, h.2.1⟩), by rw [h.2.2]; simp [callShapes]⟩
            · exact ⟨Or.inr (Or.inr (Or.inl ⟨h.1, ⟨s3, h.2.1⟩, by rw [h.2.2]; simp⟩)),
                by rw [h.2.2]; simp [callShapes]⟩
            · rw [fuxi_after_default] at h
              exact ⟨Or.inr (Or.inr (Or.inr ⟨h.1, h.2.1⟩)), by rw [h.2.2]; simp [callShapes]⟩
      · refine ⟨Or.inr (Or.inr (Or.inr ?_)), ?_⟩ <;>
          simp [fuxiMounter.SetUpAt, hb, callGet, hg, hne, Run.issued, callShapes]

/-- A run of the tail of `SetUpAt` that returns no error held a record and
adopted its mountpoint, or the one `Mount` returned at the state it was
entered with. -/
theorem adopt_returned_none {σ : Type} (m : fuxiMounter σ) (c : Fuxi σ) (dir : String)
    (vol : Option FuxiVolume) (w0 : World σ) (s : σ) (pre : List Call)
    (h : (m.adopt c dir vol ⟨s, w0.calls ++ pre⟩).result = .returned none) :
    ∃ r, vol = some r ∧ adoptedFrom c dir r s pre (m.adopt c dir vol ⟨s, w0.calls ++ pre⟩) w0 := by
  cases vol with
  | none => simp [fuxiMounter.adopt] at h
  | some r =>
    refine ⟨r, rfl, ?_⟩
    by_cases hm : r.Mountpoint = ""
    · rcases hmt : c.Mount dir "" s with ⟨⟨mp, me⟩, s4⟩
      cases me with
      | some e => simp [fuxiMounter.adopt, hm, callMount, hmt] at h
      | none =>
        right
        refine ⟨hm, mp, s4, hmt, ?_⟩
        simp [fuxiMounter.adopt, Run.issued, hm, callMount, hmt]
    · left
      simp [fuxiMounter.adopt, Run.issued, hm]

/-- A run of `SetUpAt` that returns no error reached its tail with a record
and adopted from it. -/
theorem SetUpAt_returned_none {σ : Type} (p : Platform σ) (mounter : fuxiMounter σ)
    (dir : String) (fsGroup : Option Int) (w : World σ)
    (hr : (mounter.SetUpAt p dir fsGroup w).result = .returned none) :
    ∃ c r s3 pre, mounter.boundClient p = .ok c ∧
      reachesTail c mounter.createOptions dir w.remote r s3 pre ∧
      adoptedFrom c dir r s3 pre (mounter.SetUpAt p dir fsGroup w) w := by
  cases hb : mounter.boundClient p with
  | error e0 => simp [fuxiMounter.SetUpAt, hb] at hr
  | ok c =>
    rcases hg : c.Get dir w.remote with ⟨⟨v, e⟩, s1⟩
    cases e with
    | none =>
      have hrun : mounter.SetUpAt p dir fsGroup w =
          fuxiMounter.adopt { mounter with client := some c } c dir v
            ⟨s1, w.calls ++ [Call.Get dir]⟩ := by
        simp [fuxiMounter.SetUpAt, hb, callGet, hg]
      rw [hrun] at hr ⊢
      obtain ⟨r, hv, had⟩ := adopt_returned_none _ c dir v w s1 [Call.Get dir] hr
      subst hv
      exact ⟨c, r, s1, [Call.Get dir], rfl, Or.inl ⟨hg, rfl⟩, had⟩
    | some e1 =>
      by_cases hne : e1.Error = VolumeNotFound
      · rcases hcr : c.Create dir mounter.createOptions s1 with ⟨ce, s2⟩
        cases ce with
        | some e2 =>
          simp [fuxiMounter.SetUpAt, hb, callGet, hg, hne, callCreate, options_after_default,
            hcr] at hr
        | none =>
          rcases hg2 : c.Get dir s2 with ⟨⟨v2, e3⟩, s3⟩
          cases e3 with
          | some e3 =>
            simp [fuxiMounter.SetUpAt, hb, callGet, hg, hne, callCreate, options_after_default,
              hcr, hg2] at hr
          | none =>
            have hrun : mounter.SetUpAt p dir fsGroup w =
                fuxiMounter.adopt
                  (match mounter.options with
                    | none => ({ mounter with client := some c, options := some [] } :
                        fuxiMounter σ)
                    | some _ => { mounter with client := some c }) c dir v2
                  ⟨s3, w.calls ++
                    [Call.Get dir, Call.Create dir mounter.createOptions, Call.Get dir]⟩ := by
              simp [fuxiMounter.SetUpAt, hb, callGet, hg, hne, callCreate,
                options_after_default, hcr, hg2]
            rw [hrun] at hr ⊢
            obtain ⟨r, hv, had⟩ := adopt_returned_none _ c dir v2 w s3
              [Call.Get dir, Call.Create dir mounter.createOptions, Call.Get dir] hr
            subst hv
            exact ⟨c, r, s3, _, rfl, Or.inr ⟨v, e1, s1, s2, hg, hne, hcr, hg2, rfl⟩, had⟩
      · simp [fuxiMounter.SetUpAt, hb, callGet, hg, hne] at hr

/-- After a first `Get` that failed with "Volume Not Found", the calls issued
are that `Get`, then `Create` with the defaulted options, then calls among which
there is no further `Create`. -/
theorem issued_after_not_found {σ : Type} (p : Platform σ) (mounter : fuxiMounter σ)
    (dir : String) (fsGroup : Option Int) (w : World σ) (c : Fuxi σ)
    (v0 : Option FuxiVolume) (e : GoError) (s1 : σ)
    (hc : mounter.boundClient p = .ok c)
    (hget : c.Get dir w.remote = ((v0, some e), s1))
    (he : e.Error = VolumeNotFound) :
    ∃ rest, (mounter.SetUpAt p dir fsGroup w).issued w =
        Call.Get dir :: Call.Create dir mounter.createOptions :: rest ∧
      ∀ name o, Call.Create name o ∉ rest := by
  rcases hcr : c.Create dir mounter.createOptions s1 with ⟨ce, s2⟩
  cases ce with
  | some e2 =>
    refine ⟨[], ?_, by simp⟩
    simp [fuxiMounter.SetUpAt, hc, callGet, hget, he, callCreate, options_after_default,
      hcr, Run.issued]
  | none =>
    rcases hg2 : c.Get dir s2 with ⟨⟨v2, e3⟩, s3⟩
    cases e3 with
    | some e3 =>
      refine ⟨[Call.Get dir], ?_, by simp⟩
      simp [fuxiMounter.SetUpAt, hc, callGet, hget, he, callCreate, options_after_default,
        hcr, hg2, Run.issued]
    | none =>
      have hrun : mounter.SetUpAt p dir fsGroup w =
          fuxiMounter.adopt
            (match mounter.options with
              | none => ({ mounter with client := some c, options := some [] } :
                  fuxiMounter σ)
              | some _ => { mounter with client := some c }) c dir v2
            ⟨s3, w.calls ++
              [Call.Get dir, Call.Create dir mounter.createOptions, Call.Get dir]⟩ := by
        simp [fuxiMounter.SetUpAt, hc, callGet, hget, he, callCreate,
          options_after_default, hcr, hg2]
      rw [hrun]
      rcases adopt_cases (match mounter.options with
              | none => ({ mounter with client := some c, options := some [] } :
                  fuxiMounter σ)
              | some _ => { mounter with client := some c }) c dir v2 w s3
          [Call.Get dir, Call.Create dir mounter.createOptions, Call.Get dir] with
        h | h | h | h
      · exact ⟨[Call.Get dir], by rw [h.2.2], by simp⟩
      · exact ⟨[Call.Get dir], by rw [h.2.2], by simp⟩
      · exact ⟨[Call.Get dir, Call.Mount dir ""], by rw [h.2.2]; simp, by simp⟩
      · exact ⟨[Call.Get dir, Call.Mount dir ""], by rw [h.2.2]; simp, by simp⟩

/-- A mounter with a bound client goes on with that client. -/
theorem boundClient_of_client {σ : Type} (p : Platform σ) (mounter : fuxiMounter σ)
    (c : Fuxi σ) (h : mounter.client = some c) : mounter.boundClient p = .ok c := by
  simp [fuxiMounter.boundClient, h]

/-- Against a faithful service on which the volume is mounted, a run issues
one `Get`, adopts the mountpoint of the service and changes nothing there. -/
theorem faithful_run_mounted {σ : Type} (p : Platform σ) (mounter : fuxiMounter σ)
    (dir : String) (fsGroup : Option Int) (w : World σ) (c : Fuxi σ)
    (view : σ → String → Option String) (m : String)
    (hf : FaithfulService c view) (hc : mounter.boundClient p = .ok c)
    (hv : view w.remote dir = some m) (hm : m ≠ "") :
    (mounter.SetUpAt p dir fsGroup w).result = .returned none ∧
    (mounter.SetUpAt p dir fsGroup w).mounter.client = some c ∧
    (mounter.SetUpAt p dir fsGroup w).mounter.fuxi.path = m ∧
    view (mounter.SetUpAt p dir fsGroup w).world.remote = view w.remote ∧
    (mounter.SetUpAt p dir fsGroup w).issued w = [Call.Get dir] := by
  obtain ⟨r, s1, hg, hr, hs1⟩ := hf.get_present w.remote dir m hv
  subst hr
  simp [fuxiMounter.SetUpAt, hc, callGet, hg, fuxiMounter.adopt, hm, Run.issued, hs1]

/-- Against a faithful service, whatever state the volume is in, a run returns
no error, leaves the volume mounted and adopts its mountpoint, and issues the
calls that state asks for. -/
theorem faithful_run {σ : Type} (p : Platform σ) (mounter : fuxiMounter σ)
    (dir : String) (fsGroup : Option Int) (w : World σ) (c : Fuxi σ)
    (view : σ → String → Option String)
    (hf : FaithfulService c view) (hc : mounter.boundClient p = .ok c) :
    (mounter.SetUpAt p dir fsGroup w).result = .returned none ∧
    (mounter.SetUpAt p dir fsGroup w).mounter.client = some c ∧
    (∃ m, m ≠ "" ∧ view (mounter.SetUpAt p dir fsGroup w).world.remote dir = some m ∧
      (mounter.SetUpAt p dir fsGroup w).mounter.fuxi.path = m) ∧
    (mounter.SetUpAt p dir fsGroup w).issued w =
      callsFor dir mounter.createOptions (view w.remote dir) := by
  cases hv : view w.remote dir with
  | none =>
    obtain ⟨v0, e, s1, hg, he, hs1⟩ := hf.get_absent w.remote dir hv
    have hv1 : view s1 dir = none := by rw [hs1]; exact hv
    obtain ⟨s2, hcr, hs2⟩ := hf.create_adds s1 dir mounter.createOptions hv1
    have hv2 : view s2 dir = some "" := by rw [hs2]; simp
    obtain ⟨r, s3, hg2, hr, hs3⟩ := hf.get_present s2 dir "" hv2
    have hv3 : view s3 dir = some "" := by rw [hs3]; exact hv2
    obtain ⟨m, s4, hmt, hm, hs4⟩ := hf.mount_sets s3 dir "" hv3
    have hv4 : view s4 dir = some m := by rw [hs4]; simp
    refine ⟨?_, ?_, ⟨m, hm, ?_, ?_⟩, ?_⟩ <;>
      simp [fuxiMounter.SetUpAt, hc, callGet, hg, he, callCreate, options_after_default, hcr,
        hg2, fuxiMounter.adopt, hr, callMount, hmt, Run.issued, hv4, callsFor]
    cases ho : mounter.options <;> simp
  | some m =>
    by_cases hm : m = ""
    · subst hm
      obtain ⟨r, s1, hg, hr, hs1⟩ := hf.get_present w.remote dir "" hv
      have hv1 : view s1 dir = some "" := by rw [hs1]; exact hv
      obtain ⟨m, s2, hmt, hm, hs2⟩ := hf.mount_sets s1 dir "" hv1
      have hv2 : view s2 dir = some m := by rw [hs2]; simp
      refine ⟨?_, ?_, ⟨m, hm, ?_, ?_⟩, ?_⟩ <;>
        simp [fuxiMounter.SetUpAt, hc, callGet, hg, fuxiMounter.adopt, hr, callMount, hmt,
          Run.issued, hv2, callsFor]
    · obtain ⟨h1, h2, h3, h4, h5⟩ :=
        faithful_run_mounted p mounter dir fsGroup w c view m hf hc hv hm
      refine ⟨h1, h2, ⟨m, hm, ?_, h3⟩, ?_⟩
      · rw [h4]; exact hv
      · rw [h5]; simp [callsFor, hm]

/-- The in-memory service is a faithful service. -/
theorem modelService_faithful : FaithfulService modelService id where
  get_absent := by
    intro s name h
    simp only [id] at h
    refine ⟨some FuxiVolume.zero, errors.New VolumeNotFound, s, ?_, rfl, rfl⟩
    simp [modelService, h]
  get_present := by
    intro s name m h
    simp only [id] at h
    simp [modelService, h]
  create_adds := by
    intro s name opts h
    simp only [id] at h
    simp [modelService, h]
  mount_sets := by
    intro s name id0 h
    simp only [id] at h
    have hne : "/mnt/" ++ name ≠ "" := by
      intro h0
      have hl := congrArg String.length h0
      rw [String.length_append] at hl
      have h5 : "/mnt/".length = 5 := by decide
      rw [h5] at hl
      have h00 : "".length = 0 := by decide
      omega
    refine ⟨"/mnt/" ++ name, Function.update s name (some ("/mnt/" ++ name)), ?_, hne, rfl⟩
    simp [modelService, h]

/-- C2.  When the first `Get` returns no error and a record whose `Mountpoint`
is non-empty, `SetUpAt` issues that one `Get` and nothing else (no `Create`, no
`Mount`), returns no error, and records that `Mountpoint` as the session path. -/
theorem SetUpAt_already_mounted {σ : Type} (p : Platform σ) (mounter : fuxiMounter σ)
    (dir : String) (fsGroup : Option Int) (w : World σ) (c : Fuxi σ) (r : FuxiVolume) (s1 : σ)
    (hc : mounter.boundClient p = .ok c)
    (hget : c.Get dir w.remote = ((some r, none), s1))
    (hm : r.Mountpoint ≠ "") :
    (mounter.SetUpAt p dir fsGroup w).result = .returned none ∧
    (mounter.SetUpAt p dir fsGroup w).issued w = [Call.Get dir] ∧
    (mounter.SetUpAt p dir fsGroup w).mounter.fuxi.path = r.Mountpoint := by
  simp [fuxiMounter.SetUpAt, hc, callGet, hget, fuxiMounter.adopt, hm, Run.issued]

/-- C3.  When the first `Get` fails with an error whose message is not
"Volume Not Found", `SetUpAt` returns that error, issues only that `Get` (no
`Create`, no `Mount`) and leaves the session path as it was; and whenever a
`Create` call is issued, the first `Get` failed with an error whose message is
exactly "Volume Not Found". -/
theorem SetUpAt_other_get_error {σ : Type} (p : Platform σ) (mounter : fuxiMounter σ)
    (dir : String) (fsGroup : Option Int) (w : World σ) (c : Fuxi σ)
    (hc : mounter.boundClient p = .ok c) :
    (∀ e, (c.Get dir w.remote).1.2 = some e → e.Error ≠ VolumeNotFound →
      (mounter.SetUpAt p dir fsGroup w).result = .returned (some e) ∧
      (mounter.SetUpAt p dir fsGroup w).issued w = [Call.Get dir] ∧
      (mounter.SetUpAt p dir fsGroup w).mounter.fuxi.path = mounter.fuxi.path) ∧
    (∀ name opts, Call.Create name opts ∈ (mounter.SetUpAt p dir fsGroup w).issued w →
      ∃ e, (c.Get dir w.remote).1.2 = some e ∧ e.Error = VolumeNotFound) := by
  rcases hg : c.Get dir w.remote with ⟨⟨v, e⟩, s1⟩
  constructor
  · intro e1 he1 hne
    simp only at he1
    subst he1
    simp [fuxiMounter.SetUpAt, hc, callGet, hg, hne, Run.issued]
  · intro name opts hmem
    cases e with
    | none =>
      exfalso
      cases v with
      | none => simp [fuxiMounter.SetUpAt, hc, callGet, hg, fuxiMounter.adopt, Run.issued] at hmem
      | some r =>
        by_cases hm : r.Mountpoint = ""
        · rcases hmt : c.Mount dir "" s1 with ⟨⟨mp, me⟩, s2⟩
          cases me <;>
            simp [fuxiMounter.SetUpAt, hc, callGet, hg, fuxiMounter.adopt, Run.issued, hm,
              callMount, hmt] at hmem
        · simp [fuxiMounter.SetUpAt, hc, callGet, hg, fuxiMounter.adopt, Run.issued, hm] at hmem
    | some e1 =>
      by_cases hne : e1.Error = VolumeNotFound
      · exact ⟨e1, rfl, hne⟩
      · exfalso
        simp [fuxiMounter.SetUpAt, hc, callGet, hg, hne, Run.issued] at hmem

/-- C1 (amended).  When the first `Get` fails with the message "Volume Not
Found": a failing `Create` ends the run with its error after `Get, Create`; a
failing second `Get` ends it with its error after `Get, Create, Get`; and when
both succeed, with record `r`, the run issues `Get, Create, Get`, followed by
`Mount(dir, "")` exactly when `r.Mountpoint` is empty.  It then returns no
error and records `r.Mountpoint` when that is non-empty, or the mountpoint
`Mount` returned when `Mount` succeeded; when `Mount` fails, the error of
`Mount` is returned and the session path is left as it was. -/
theorem SetUpAt_not_found_then_create {σ : Type} (p : Platform σ) (mounter : fuxiMounter σ)
    (dir : String) (fsGroup : Option Int) (w : World σ) (c : Fuxi σ)
    (v0 : Option FuxiVolume) (e : GoError) (s1 : σ)
    (hc : mounter.boundClient p = .ok c)
    (hget : c.Get dir w.remote = ((v0, some e), s1))
    (he : e.Error = VolumeNotFound) :
    (∀ e2 s2, c.Create dir mounter.createOptions s1 = (some e2, s2) →
      (mounter.SetUpAt p dir fsGroup w).result = .returned (some e2) ∧
      (mounter.SetUpAt p dir fsGroup w).issued w =
        [Call.Get dir, Call.Create dir mounter.createOptions]) ∧
    (∀ s2 v e3 s3, c.Create dir mounter.createOptions s1 = (none, s2) →
      c.Get dir s2 = ((v, some e3), s3) →
      (mounter.SetUpAt p dir fsGroup w).result = .returned (some e3) ∧
      (mounter.SetUpAt p dir fsGroup w).issued w =
        [Call.Get dir, Call.Create dir mounter.createOptions, Call.Get dir]) ∧
    (∀ s2 r s3, c.Create dir mounter.createOptions s1 = (none, s2) →
      c.Get dir s2 = ((some r, none), s3) →
      (r.Mountpoint ≠ "" →
        (mounter.SetUpAt p dir fsGroup w).result = .returned none ∧
        (mounter.SetUpAt p dir fsGroup w).issued w =
          [Call.Get dir, Call.Create dir mounter.createOptions, Call.Get dir] ∧
        (mounter.SetUpAt p dir fsGroup w).mounter.fuxi.path = r.Mountpoint) ∧
      (r.Mountpoint = "" →
        (mounter.SetUpAt p dir fsGroup w).issued w =
          [Call.Get dir, Call.Create dir mounter.createOptions, Call.Get dir,
            Call.Mount dir ""] ∧
        (∀ mountpoint s4, c.Mount dir "" s3 = ((mountpoint, none), s4) →
          (mounter.SetUpAt p dir fsGroup w).result = .returned none ∧
          (mounter.SetUpAt p dir fsGroup w).mounter.fuxi.path = mountpoint) ∧
        (∀ mountpoint e4 s4, c.Mount dir "" s3 = ((mountpoint, some e4), s4) →
          (mounter.SetUpAt p dir fsGroup w).result = .returned (some e4) ∧
          (mounter.SetUpAt p dir fsGroup w).mounter.fuxi.path = mounter.fuxi.path))) := by
  have hopt := options_after_default mounter c
  have hpath := fuxi_after_default mounter c
  refine ⟨?_, ?_, ?_⟩
  · intro e2 s2 hcr
    simp [fuxiMounter.SetUpAt, hc, callGet, hget, he, callCreate, hopt, hcr, Run.issued]
  · intro s2 v e3 s3 hcr hg2
    simp [fuxiMounter.SetUpAt, hc, callGet, hget, he, callCreate, hopt, hcr, hg2, Run.issued]
  · intro s2 r s3 hcr hg2
    refine ⟨?_, ?_⟩
    · intro hm
      simp [fuxiMounter.SetUpAt, hc, callGet, hget, he, callCreate, hopt, hcr, hg2, Run.issued,
        fuxiMounter.adopt, hm]
    · intro hm
      rcases hmt : c.Mount dir "" s3 with ⟨⟨mp, me⟩, s4⟩
      cases me with
      | none =>
        simp [fuxiMounter.SetUpAt, hc, callGet, hget, he, callCreate, hopt, hcr, hg2, Run.issued,
          fuxiMounter.adopt, hm, callMount, hmt]
      | some e4 =>
        simp [fuxiMounter.SetUpAt, hc, callGet, hget, he, callCreate, hopt, hcr, hg2, Run.issued,
          fuxiMounter.adopt, hm, callMount, hmt, hpath]

/-- C8.  When the first `Get` fails with "Volume Not Found", the second call
issued is `Create`; a mounter whose options are nil hands it a non-nil empty
map, a mounter whose options are set hands it exactly those; and no `Create`
call of the run carries a nil map or any other map. -/
theorem SetUpAt_create_options {σ : Type} (p : Platform σ) (mounter : fuxiMounter σ)
    (dir : String) (fsGroup : Option Int) (w : World σ) (c : Fuxi σ)
    (v0 : Option FuxiVolume) (e : GoError) (s1 : σ)
    (hc : mounter.boundClient p = .ok c)
    (hget : c.Get dir w.remote = ((v0, some e), s1))
    (he : e.Error = VolumeNotFound) :
    (mounter.options = none →
      ((mounter.SetUpAt p dir fsGroup w).issued w)[1]? = some (Call.Create dir (some []))) ∧
    (∀ m, mounter.options = some m →
      ((mounter.SetUpAt p dir fsGroup w).issued w)[1]? = some (Call.Create dir (some m))) ∧
    (∀ name o, Call.Create name o ∈ (mounter.SetUpAt p dir fsGroup w).issued w →
      name = dir ∧ o ≠ none ∧ o = mounter.createOptions) := by
  obtain ⟨rest, hrest, hno⟩ := issued_after_not_found p mounter dir fsGroup w c v0 e s1 hc hget he
  rw [hrest]
  refine ⟨?_, ?_, ?_⟩
  · intro h
    simp [fuxiMounter.createOptions, h]
  · intro m h
    simp [fuxiMounter.createOptions, h]
  · intro name o hmem
    simp only [List.mem_cons] at hmem
    rcases hmem with h | h | h
    · cases h
    · cases h
      refine ⟨rfl, ?_, rfl⟩
      cases ho : mounter.options <;> simp [fuxiMounter.createOptions, ho]
    · exact absurd h (hno name o)

/-- C10 (amended).  One run of `SetUpAt` issues at most four remote calls: none
at all, or one of `Get`; `Get, Mount`; `Get, Create`; `Get, Create, Get`;
`Get, Create, Get, Mount`. -/
theorem SetUpAt_at_most_four_calls {σ : Type} (p : Platform σ) (mounter : fuxiMounter σ)
    (dir : String) (fsGroup : Option Int) (w : World σ) :
    ((mounter.SetUpAt p dir fsGroup w).issued w).length ≤ 4 ∧
    ((mounter.SetUpAt p dir fsGroup w).issued w = [] ∨
      (mounter.SetUpAt p dir fsGroup w).issued w ∈ callShapes dir mounter.createOptions) := by
  rcases SetUpAt_cases p mounter dir fsGroup w with h | ⟨c, _, _, h⟩
  · rw [h.2.2]
    simp
  · refine ⟨?_, Or.inr h⟩
    simp only [callShapes, List.mem_cons, List.mem_singleton, List.not_mem_nil, or_false] at h
    rcases h with h | h | h | h | h <;> simp [h]

/-- C6 (amended).  Whenever `SetUpAt` returns an error, the recorded session
path is what it was before the call.  Whenever it returns no error, the run
reached its tail with a record `r` (from the first `Get`, or from the second
one after `Create`), and the recorded path is the mountpoint it adopted there:
`r.Mountpoint` when that is non-empty, and otherwise the mountpoint that
`Mount(dir, "")`, called at the state the run had reached, returned with no
error.  So the recorded path is empty after a no-error return exactly in the
runs that end with such a `Mount` call returning an empty mountpoint and no
error.  A run that panics leaves the path as it was. -/
theorem SetUpAt_path_on_return {σ : Type} (p : Platform σ) (mounter : fuxiMounter σ)
    (dir : String) (fsGroup : Option Int) (w : World σ) :
    (∀ e, (mounter.SetUpAt p dir fsGroup w).result = .returned (some e) →
      (mounter.SetUpAt p dir fsGroup w).mounter.fuxi.path = mounter.fuxi.path) ∧
    ((mounter.SetUpAt p dir fsGroup w).result = .returned none →
      ∃ c r s3 pre, mounter.boundClient p = .ok c ∧
        reachesTail c mounter.createOptions dir w.remote r s3 pre ∧
        adoptedFrom c dir r s3 pre (mounter.SetUpAt p dir fsGroup w) w) ∧
    ((mounter.SetUpAt p dir fsGroup w).result = .returned none →
      ((mounter.SetUpAt p dir fsGroup w).mounter.fuxi.path = "" ↔
        ∃ c r s3 pre s4, mounter.boundClient p = .ok c ∧
          reachesTail c mounter.createOptions dir w.remote r s3 pre ∧
          r.Mountpoint = "" ∧ c.Mount dir "" s3 = (("", none), s4) ∧
          (mounter.SetUpAt p dir fsGroup w).issued w = pre ++ [Call.Mount dir ""] ∧
          (mounter.SetUpAt p dir fsGroup w).world.remote = s4)) ∧
    ((mounter.SetUpAt p dir fsGroup w).result = .panicked →
      (mounter.SetUpAt p dir fsGroup w).mounter.fuxi.path = mounter.fuxi.path) := by
  refine ⟨?_, SetUpAt_returned_none p mounter dir fsGroup w, ?_, ?_⟩
  · intro e hr
    rcases SetUpAt_cases p mounter dir fsGroup w with h | ⟨c, _, h, _⟩
    · exact h.2.1
    · rcases h with h | h | h | h
      · rw [h.1] at hr; cases hr
      · rw [h.1] at hr; cases hr
      · rw [h.1] at hr; cases hr
      · exact h.2
  · intro hr
    obtain ⟨c, r, s3, pre, hc, hreach, had⟩ := SetUpAt_returned_none p mounter dir fsGroup w hr
    constructor
    · intro hp
      rcases had with ⟨hm, hpath, _, _⟩ | ⟨hm, mp, s4, hmt, hpath, hiss, hrem⟩
      · rw [hp] at hpath
        exact absurd hpath.symm hm
      · rw [hp] at hpath
        rw [← hpath] at hmt
        exact ⟨c, r, s3, pre, s4, hc, hreach, hm, hmt, hiss, hrem⟩
    · rintro ⟨c2, r2, s32, pre2, s42, hc2, hreach2, hm2, hmt2, hiss2, _⟩
      rw [hc] at hc2
      cases hc2
      rcases had with ⟨hm, hpath, hiss, _⟩ | ⟨hm, mp, s4, hmt, hpath, hiss, hrem⟩
      · exfalso
        rw [hiss] at hiss2
        rcases hreach with ⟨hg, hpre⟩ | ⟨v0, e, s1, s2, hg, he, hcr, hg2, hpre⟩ <;>
          rcases hreach2 with ⟨hgb, hpreb⟩ | ⟨v0b, eb, s1b, s2b, hgb, heb, hcrb, hg2b, hpreb⟩ <;>
          · rw [hpre, hpreb] at hiss2
            simp at hiss2
      · rcases hreach with ⟨hg, hpre⟩ | ⟨v0, e, s1, s2, hg, he, hcr, hg2, hpre⟩ <;>
          rcases hreach2 with ⟨hgb, hpreb⟩ | ⟨v0b, eb, s1b, s2b, hgb, heb, hcrb, hg2b, hpreb⟩
        · rw [hg] at hgb
          cases hgb
          rw [hmt] at hmt2
          cases hmt2
          exact hpath
        · rw [hg] at hgb
          cases hgb
        · rw [hg] at hgb
          cases hgb
        · rw [hg] at hgb
          cases hgb
          rw [hcr] at hcrb
          cases hcrb
          rw [hg2] at hg2b
          cases hg2b
          rw [hmt] at hmt2
          cases hmt2
          exact hpath
  · intro hr
    rcases SetUpAt_cases p mounter dir fsGroup w with h | ⟨c, _, h, _⟩
    · obtain ⟨⟨e0, he0⟩, _, _⟩ := h
      rw [he0] at hr; cases hr
    · rcases h with h | h | h | h
      · exact h.2
      · rw [h.1] at hr; cases hr
      · rw [h.1] at hr; cases hr
      · obtain ⟨⟨e0, he0⟩, _⟩ := h
        rw [he0] at hr; cases hr

/-- C4.  Each of `Create`, `Remove`, `Get`, `Mount`, `Path`, `List` and
`Capabilities` follows the error convention: on a response the transport
decoded, it returns an error exactly when the `Err` field is non-empty, and
the message of that error is that field; when the transport fails, it returns
the transport error unchanged and a zero payload (for `Get`, a nil volume). -/
theorem client_error_convention {σ : Type} (c : Client σ) (volName ID : String)
    (opts : StringMap) (s : σ) :
    errConvention (c.post (c.getURL "VolumeDriver.Create") (.CreateRequest volName opts) s)
      (c.Create volName opts s).1 True ∧
    errConvention (c.post (c.getURL "VolumeDriver.Remove") (.RemoveRequest volName) s)
      (c.Remove volName s).1 True ∧
    errConvention (c.post (c.getURL "VolumeDriver.Get") (.GetRequest volName) s)
      (c.Get volName s).1.2 ((c.Get volName s).1.1 = none) ∧
    errConvention (c.post (c.getURL "VolumeDriver.Mount") (.MountRequest volName) s)
      (c.Mount volName ID s).1.2 ((c.Mount volName ID s).1.1 = "") ∧
    errConvention (c.post (c.getURL "VolumeDriver.Get") (.PathRequest volName) s)
      (c.Path volName s).1.2 ((c.Path volName s).1.1 = "") ∧
    errConvention (c.post (c.getURL "VolumeDriver.List") .ListRequest s)
      (c.List s).1.2 ((c.List s).1.1 = none) ∧
    errConvention (c.post (c.getURL "VolumeDriver.Capabilities") .CapabilitiesRequest s)
      (c.Capabilities s).1.2 ((c.Capabilities s).1.1 = Capability.zero) := by
  refine ⟨?_, ?_, ?_, ?_, ?_, ?_, ?_⟩
  · rcases h : c.post (c.getURL "VolumeDriver.Create") (.CreateRequest volName opts) s with
      ⟨e | doc, s1⟩
    · simp [errConvention, Client.Create, h]
    · by_cases hd : doc.Err = "" <;>
        simp [errConvention, Client.Create, h, hd, errors.New, GoError.Error]
  · rcases h : c.post (c.getURL "VolumeDriver.Remove") (.RemoveRequest volName) s with
      ⟨e | doc, s1⟩
    · simp [errConvention, Client.Remove, h]
    · by_cases hd : doc.Err = "" <;>
        simp [errConvention, Client.Remove, h, hd, errors.New, GoError.Error]
  · rcases h : c.post (c.getURL "VolumeDriver.Get") (.GetRequest volName) s with
      ⟨e | doc, s1⟩
    · simp [errConvention, Client.Get, h]
    · by_cases hd : doc.Err = "" <;>
        simp [errConvention, Client.Get, h, hd, errors.New, GoError.Error]
  · rcases h : c.post (c.getURL "VolumeDriver.Mount") (.MountRequest volName) s with
      ⟨e | doc, s1⟩
    · simp [errConvention, Client.Mount, h]
    · by_cases hd : doc.Err = "" <;>
        simp [errConvention, Client.Mount, h, hd, errors.New, GoError.Error]
  · rcases h : c.post (c.getURL "VolumeDriver.Get") (.PathRequest volName) s with
      ⟨e | doc, s1⟩
    · simp [errConvention, Client.Path, h]
    · by_cases hd : doc.Err = "" <;>
        simp [errConvention, Client.Path, h, hd, errors.New, GoError.Error]
  · rcases h : c.post (c.getURL "VolumeDriver.List") .ListRequest s with ⟨e | doc, s1⟩
    · simp [errConvention, Client.List, h]
    · by_cases hd : doc.Err = "" <;>
        simp [errConvention, Client.List, h, hd, errors.New, GoError.Error]
  · rcases h : c.post (c.getURL "VolumeDriver.Capabilities") .CapabilitiesRequest s with
      ⟨e | doc, s1⟩
    · simp [errConvention, Client.Capabilities, h]
    · by_cases hd : doc.Err = "" <;>
        simp [errConvention, Client.Capabilities, h, hd, errors.New, GoError.Error]

/-- C7.  `GetPath` never fails: it always returns a string and never panics,
and it leaves the session record as it was.  With a non-empty recorded path it
returns that path and touches nothing (no client, no remote call).  Otherwise
it returns the empty string when building the client fails (nothing is called)
or when `Get` fails, and the `Mountpoint` of the record `Get` returned when
both succeed; the one call it makes is `Get` for the volume name. -/
theorem GetPath_never_fails {σ : Type} (p : Platform σ) (f : fuxi) (w : World σ) :
    (∃ path, (f.GetPath p w).1 = .returned path) ∧
    (f.GetPath p w).2.1 = f ∧
    (f.path ≠ "" → f.GetPath p w = (.returned f.path, f, w)) ∧
    (f.path = "" → ∀ e, f.NewFuxiClient p = .error e →
      f.GetPath p w = (.returned "", f, w)) ∧
    (f.path = "" → ∀ c, f.NewFuxiClient p = .ok c →
      (f.GetPath p w).2.2 = ⟨(c.Get f.volume w.remote).2, w.calls ++ [Call.Get f.volume]⟩ ∧
      (∀ e, (c.Get f.volume w.remote).1.2 = some e → (f.GetPath p w).1 = .returned "") ∧
      ((c.Get f.volume w.remote).1.2 = none →
        ∃ r, (c.Get f.volume w.remote).1.1 = some r ∧
          (f.GetPath p w).1 = .returned r.Mountpoint)) := by
  by_cases hp : f.path = ""
  · cases hn : f.NewFuxiClient p with
    | error e0 => simp [fuxi.GetPath, hp, hn]
    | ok c =>
      rcases h : c.post (c.getURL "VolumeDriver.Get") (.GetRequest f.volume) w.remote with
        ⟨e | doc, s1⟩
      · simp [fuxi.GetPath, hp, hn, callGet, Client.toFuxi, Client.Get, h]
      · by_cases hd : doc.Err = "" <;>
          simp [fuxi.GetPath, hp, hn, callGet, Client.toFuxi, Client.Get, h, hd]
  · simp [fuxi.GetPath, hp]

/-- C9.  `TearDownAt` is a no-op: it returns no error and leaves the session
record and the world (remote side and call log) exactly as they were.
`TearDown` returns no error and leaves the session record as it was; it issues
no call, or the single `Get` for the volume name that `GetPath` makes, so no
`Remove` and no `Mount` call. -/
theorem TearDown_is_noop {σ : Type} (p : Platform σ) (u : fuxiUnmounter) (dir : String)
    (w : World σ) :
    fuxiUnmounter.TearDownAt u dir w = (.returned none, u, w) ∧
    (u.TearDown p w).1 = .returned none ∧
    (u.TearDown p w).2.1 = u ∧
    ((u.TearDown p w).2.2 = w ∨
      ∃ c, u.fuxi.NewFuxiClient p = .ok c ∧
        (u.TearDown p w).2.2 =
          ⟨(c.post (c.getURL "VolumeDriver.Get") (.GetRequest u.fuxi.volume) w.remote).2,
            w.calls ++ [Call.Get u.fuxi.volume]⟩) ∧
    (∀ name, Call.Remove name ∉ (u.TearDown p w).2.2.calls.drop w.calls.length) ∧
    (∀ name id, Call.Mount name id ∉ (u.TearDown p w).2.2.calls.drop w.calls.length) := by
  by_cases hp : u.fuxi.path = ""
  · cases hn : u.fuxi.NewFuxiClient p with
    | error e0 => simp [fuxiUnmounter.TearDown, fuxiUnmounter.TearDownAt, fuxi.GetPath, hp, hn]
    | ok c =>
      rcases h : c.post (c.getURL "VolumeDriver.Get") (.GetRequest u.fuxi.volume) w.remote with
        ⟨e | doc, s1⟩
      · simp [fuxiUnmounter.TearDown, fuxiUnmounter.TearDownAt, fuxi.GetPath, hp, hn, callGet,
          Client.toFuxi, Client.Get, h]
      · by_cases hd : doc.Err = "" <;>
          simp [fuxiUnmounter.TearDown, fuxiUnmounter.TearDownAt, fuxi.GetPath, hp, hn, callGet,
            Client.toFuxi, Client.Get, h, hd]
  · simp [fuxiUnmounter.TearDown, fuxiUnmounter.TearDownAt, fuxi.GetPath, hp]

/-- C5.  Against a faithful remote service, from any state of the volume
(absent, present but unmounted, mounted): `SetUpAt` returns no error, leaves
the volume present and mounted, and records the mountpoint of the service as
the session path; it issues `Create` only if the volume was absent and `Mount`
only if it was not mounted.  A second run directly afterwards returns no
error, issues one `Get` and nothing else, records the same path and leaves the
service as it was. -/
theorem SetUpAt_idempotent {σ : Type} (p : Platform σ) (mounter : fuxiMounter σ)
    (dir : String) (fsGroup : Option Int) (w : World σ) (c : Fuxi σ)
    (view : σ → String → Option String) (run1 run2 : Run σ)
    (hf : FaithfulService c view) (hc : mounter.boundClient p = .ok c)
    (h1 : run1 = mounter.SetUpAt p dir fsGroup w)
    (h2 : run2 = run1.mounter.SetUpAt p dir fsGroup run1.world) :
    run1.result = .returned none ∧
    (∃ m, m ≠ "" ∧ view run1.world.remote dir = some m ∧ run1.mounter.fuxi.path = m) ∧
    run1.issued w = callsFor dir mounter.createOptions (view w.remote dir) ∧
    (∀ name o, Call.Create name o ∈ run1.issued w → view w.remote dir = none) ∧
    (∀ name id, Call.Mount name id ∈ run1.issued w →
      view w.remote dir = none ∨ view w.remote dir = some "") ∧
    run2.result = .returned none ∧
    run2.issued run1.world = [Call.Get dir] ∧
    run2.mounter.fuxi.path = run1.mounter.fuxi.path ∧
    view run2.world.remote = view run1.world.remote := by
  obtain ⟨hres, hcl, ⟨m, hm, hvm, hpath⟩, hiss⟩ := faithful_run p mounter dir fsGroup w c view hf hc
  rw [← h1] at hres hcl hvm hpath hiss
  obtain ⟨k1, _, k3, k4, k5⟩ := faithful_run_mounted p run1.mounter dir fsGroup run1.world c view
    m hf (boundClient_of_client p run1.mounter c hcl) hvm hm
  rw [← h2] at k1 k3 k4 k5
  refine ⟨hres, ⟨m, hm, hvm, hpath⟩, hiss, ?_, ?_, k1, k5, ?_, k4⟩
  · intro name o hmem
    rw [hiss] at hmem
    cases hv : view w.remote dir with
    | none => rfl
    | some m0 =>
      rw [hv] at hmem
      by_cases hm0 : m0 = "" <;> simp [callsFor, hm0] at hmem
  · intro name id hmem
    rw [hiss] at hmem
    cases hv : view w.remote dir with
    | none => exact Or.inl rfl
    | some m0 =>
      rw [hv] at hmem
      by_cases hm0 : m0 = ""
      · right; rw [hm0]
      · simp [callsFor, hm0] at hmem
  · rw [k3, hpath]

/-- Witness for C1: the canned run that finds no volume, creates it, finds it
unmounted and mounts it. -/
theorem SetUpAt_not_found_then_create_witness :
    freshMounter.boundClient cannedPlatform = .ok cannedClient.toFuxi ∧
    cannedClient.toFuxi.Get "vol1" (serving createAndMount).remote =
      ((some FuxiVolume.zero, some (.errorString "Volume Not Found")),
        ["ok", "unmounted", "mounted"]) ∧
    (freshMounter.SetUpAt cannedPlatform "vol1" none (serving createAndMount)).issued
        (serving createAndMount) =
      [Call.Get "vol1", Call.Create "vol1" (some []), Call.Get "vol1", Call.Mount "vol1" ""] ∧
    (freshMounter.SetUpAt cannedPlatform "vol1" none (serving createAndMount)).result =
      .returned none ∧
    (freshMounter.SetUpAt cannedPlatform "vol1" none (serving createAndMount)).mounter.fuxi.path =
      "/mnt/vol1" :=
  have h := ((SetUpAt_not_found_then_create cannedPlatform freshMounter "vol1" none
    (serving createAndMount) cannedClient.toFuxi (some FuxiVolume.zero)
    (.errorString "Volume Not Found") ["ok", "unmounted", "mounted"] rfl rfl rfl).2.2
      ["unmounted", "mounted"] ⟨"vol1", "", none⟩ ["mounted"] rfl rfl).2 rfl
  ⟨rfl, rfl, h.1, (h.2.1 "/mnt/vol1" [] rfl).1, (h.2.1 "/mnt/vol1" [] rfl).2⟩

/-- Counterexample to C1 as stated: the first `Get` fails with "Volume Not
Found", `Create` succeeds, the second `Get` succeeds with an unmounted record,
and `Mount` fails; `SetUpAt` then returns the error of `Mount` and records no
path. -/
theorem SetUpAt_mount_failure_counterexample :
    freshMounter.boundClient cannedPlatform = .ok cannedClient.toFuxi ∧
    cannedClient.toFuxi.Get "vol1" ["not-found", "ok", "unmounted", "busy"] =
      ((some FuxiVolume.zero, some (.errorString "Volume Not Found")),
        ["ok", "unmounted", "busy"]) ∧
    cannedClient.toFuxi.Create "vol1" (some []) ["ok", "unmounted", "busy"] =
      (none, ["unmounted", "busy"]) ∧
    cannedClient.toFuxi.Get "vol1" ["unmounted", "busy"] =
      ((some ⟨"vol1", "", none⟩, none), ["busy"]) ∧
    (freshMounter.SetUpAt cannedPlatform "vol1" none
      (serving ["not-found", "ok", "unmounted", "busy"])).result =
        .returned (some (.errorString "volume is busy")) ∧
    (freshMounter.SetUpAt cannedPlatform "vol1" none
      (serving ["not-found", "ok", "unmounted", "busy"])).mounter.fuxi.path = "" :=
  ⟨rfl, rfl, rfl, rfl, rfl, rfl⟩

/-- Witness for C2: the canned run whose first `Get` finds the volume mounted
at `/mnt/vol1`. -/
theorem SetUpAt_already_mounted_witness :
    cannedClient.toFuxi.Get "vol1" (serving ["mounted"]).remote =
      ((some ⟨"vol1", "/mnt/vol1", none⟩, none), []) ∧
    (freshMounter.SetUpAt cannedPlatform "vol1" none (serving ["mounted"])).result =
      .returned none ∧
    (freshMounter.SetUpAt cannedPlatform "vol1" none (serving ["mounted"])).issued
      (serving ["mounted"]) = [Call.Get "vol1"] ∧
    (freshMounter.SetUpAt cannedPlatform "vol1" none (serving ["mounted"])).mounter.fuxi.path =
      "/mnt/vol1" :=
  ⟨rfl, SetUpAt_already_mounted cannedPlatform freshMounter "vol1" none (serving ["mounted"])
    cannedClient.toFuxi ⟨"vol1", "/mnt/vol1", none⟩ [] rfl rfl (by decide)⟩

/-- Witness for C3: the canned run whose first `Get` is answered "volume is
busy". -/
theorem SetUpAt_other_get_error_witness :
    freshMounter.boundClient cannedPlatform = .ok cannedClient.toFuxi ∧
    (freshMounter.SetUpAt cannedPlatform "vol1" none (serving ["busy"])).result =
      .returned (some (.errorString "volume is busy")) ∧
    (freshMounter.SetUpAt cannedPlatform "vol1" none (serving ["busy"])).issued
      (serving ["busy"]) = [Call.Get "vol1"] ∧
    (freshMounter.SetUpAt cannedPlatform "vol1" none (serving ["busy"])).mounter.fuxi.path =
      freshMounter.fuxi.path :=
  ⟨rfl, (SetUpAt_other_get_error cannedPlatform freshMounter "vol1" none (serving ["busy"])
    cannedClient.toFuxi rfl).1 (.errorString "volume is busy") rfl (by decide)⟩

/-- Witness for C5: two runs in a row against the in-memory service, started
with no volume. -/
theorem SetUpAt_idempotent_witness :
    FaithfulService modelService id ∧
    firstRun.result = .returned none ∧
    (∃ m, m ≠ "" ∧ id firstRun.world.remote "vol1" = some m ∧ firstRun.mounter.fuxi.path = m) ∧
    firstRun.issued emptyWorld =
      callsFor "vol1" modelMounter.createOptions (id emptyWorld.remote "vol1") ∧
    (∀ name o, Call.Create name o ∈ firstRun.issued emptyWorld →
      id emptyWorld.remote "vol1" = none) ∧
    (∀ name id0, Call.Mount name id0 ∈ firstRun.issued emptyWorld →
      id emptyWorld.remote "vol1" = none ∨ id emptyWorld.remote "vol1" = some "") ∧
    secondRun.result = .returned none ∧
    secondRun.issued firstRun.world = [Call.Get "vol1"] ∧
    secondRun.mounter.fuxi.path = firstRun.mounter.fuxi.path ∧
    id secondRun.world.remote = id firstRun.world.remote :=
  ⟨modelService_faithful,
    SetUpAt_idempotent offlinePlatform modelMounter "vol1" none emptyWorld modelService id
      firstRun secondRun modelService_faithful rfl rfl rfl⟩

/-- Counterexample to C6 as stated: the volume exists unmounted and `Mount` is
answered with an empty mountpoint and no error; `SetUpAt` returns no error and
the recorded session path is empty. -/
theorem SetUpAt_empty_mountpoint_counterexample :
    freshMounter.fuxi.path = "" ∧
    cannedClient.toFuxi.Mount "vol1" "" ["ok"] = (("", none), []) ∧
    (freshMounter.SetUpAt cannedPlatform "vol1" none (serving ["unmounted", "ok"])).result =
      .returned none ∧
    (freshMounter.SetUpAt cannedPlatform "vol1" none
      (serving ["unmounted", "ok"])).mounter.fuxi.path = "" :=
  ⟨rfl, rfl, rfl, rfl⟩

/-- Witness for C8: the create path run once with nil options and once with
options set. -/
theorem SetUpAt_create_options_witness :
    freshMounter.options = none ∧
    ((freshMounter.SetUpAt cannedPlatform "vol1" none (serving createAndMount)).issued
      (serving createAndMount))[1]? = some (Call.Create "vol1" (some [])) ∧
    (({ freshMounter with options := some [("size", "1G")] } : fuxiMounter (List String)).SetUpAt
      cannedPlatform "vol1" none (serving createAndMount)).issued (serving createAndMount) =
      [Call.Get "vol1", Call.Create "vol1" (some [("size", "1G")]), Call.Get "vol1",
        Call.Mount "vol1" ""] ∧
    ((({ freshMounter with options := some [("size", "1G")] } :
      fuxiMounter (List String)).SetUpAt cannedPlatform "vol1" none
        (serving createAndMount)).issued (serving createAndMount))[1]? =
      some (Call.Create "vol1" (some [("size", "1G")])) :=
  ⟨rfl,
    (SetUpAt_create_options cannedPlatform freshMounter "vol1" none (serving createAndMount)
      cannedClient.toFuxi (some FuxiVolume.zero) (.errorString "Volume Not Found")
      ["ok", "unmounted", "mounted"] rfl rfl rfl).1 rfl,
    rfl,
    (SetUpAt_create_options cannedPlatform { freshMounter with options := some [("size", "1G")] }
      "vol1" none (serving createAndMount)
      cannedClient.toFuxi (some FuxiVolume.zero) (.errorString "Volume Not Found")
      ["ok", "unmounted", "mounted"] rfl rfl rfl).2.1 [("size", "1G")] rfl⟩

/-- Counterexample to C10 as stated: the canned run that finds no volume,
creates it, finds it unmounted and mounts it issues four remote calls, not at
most three. -/
theorem SetUpAt_four_calls_counterexample :
    (freshMounter.SetUpAt cannedPlatform "vol1" none (serving createAndMount)).issued
        (serving createAndMount) =
      [Call.Get "vol1", Call.Create "vol1" (some []), Call.Get "vol1", Call.Mount "vol1" ""] ∧
    ¬ ((freshMounter.SetUpAt cannedPlatform "vol1" none (serving createAndMount)).issued
        (serving createAndMount)).length ≤ 3 :=
  ⟨rfl, by decide⟩

end K8sFuxi
